import Mathlib

/-!
Shallow embedding of the alert engine in
`src/middlewared/middlewared/plugins/alert.py` (TrueNAS SCALE middleware),
together with theorems about reconciliation, policy diffing, dispatch
filtering, source-failure isolation, rollback, listing and statistics.

Python `datetime` values are modelled by `PyDatetime` (a wall-clock value in
abstract integer units plus an optional timezone offset, `none` meaning a
naive datetime); Python dicts keyed by strings are modelled by association
lists with Python's insertion semantics; `uuid.uuid4()` is modelled by
passing the freshly generated identifier as an explicit argument.
-/

namespace AlertPlugin

/-- Python `datetime`: `wall` is the clock reading in abstract units,
`tz` the timezone offset (`none` for a naive datetime). -/
structure PyDatetime where
  wall : Int
  tz : Option Int
deriving DecidableEq, Repr

/-- The `datetime.astimezone(timezone.utc).replace(tzinfo=None)` conversion
applied in `__handle_alert` when `tzinfo is not None`: an aware wall reading
`wall` at offset `off` denotes the UTC instant `wall - off`. -/
def PyDatetime.toNaiveUtc (d : PyDatetime) : PyDatetime :=
  match d.tz with
  | none => d
  | some off => ⟨d.wall - off, none⟩

/-- Alert policies, module-level `POLICIES` of `alert.py`. -/
inductive Policy where
  | IMMEDIATELY
  | HOURLY
  | DAILY
  | NEVER
deriving DecidableEq, Repr

/-- Module-level `DEFAULT_POLICY = "IMMEDIATELY"`. -/
def DEFAULT_POLICY : Policy := Policy.IMMEDIATELY

/-- Static metadata of an `AlertClass` subclass as used by `alert.py`:
`name`/`title`, the default `level` (the `AlertLevel` member's `.value`),
`products`, the `exclude_from_list` flag, and the one-shot capability with
its optional `expires_after` duration. Python compares classes by object
identity; `class_by_name` keeps names unique, so structural equality with
the name included is faithful. -/
structure AlertClassDef where
  name : String
  title : String
  level : Int
  products : List String
  exclude_from_list : Bool
  is_one_shot : Bool
  expires_after : Option Int
deriving DecidableEq, Repr

/-- An `Alert` record with the fields `alert.py` reads and writes.
`key = none` models a Python `None` key; `datetime` (first seen) and
`last_occurrence` may be unset before reconciliation. -/
structure Alert where
  klass : AlertClassDef
  node : String
  source : String
  key : Option String
  uuid : String
  args : List (String × String)
  datetime : Option PyDatetime
  last_occurrence : Option PyDatetime
  dismissed : Bool
  mail : Option String
deriving DecidableEq, Repr

/-- Per-class overrides stored in `alertclasses.config()["classes"][name]`. -/
structure ClassOverride where
  level : Option Int
  policy : Option Policy
deriving DecidableEq, Repr

/-- The `classes` dict of `alertclasses.config`: class name to override. -/
def ClassesConfig := List (String × ClassOverride)

/-- Python `classes.get(alert.klass.name, {})` field access for `level`. -/
def overrideLevel (classes : ClassesConfig) (name : String) : Option Int :=
  (List.lookup name classes).bind (fun o => o.level)

/-- Python `classes.get(alert.klass.name, {})` field access for `policy`. -/
def overridePolicy (classes : ClassesConfig) (name : String) : Option Policy :=
  (List.lookup name classes).bind (fun o => o.policy)

/-- Module-level `get_alert_level`: the override level for the alert's class
name, defaulting to the class's own level. -/
def get_alert_level (alert : Alert) (classes : ClassesConfig) : Int :=
  (overrideLevel classes alert.klass.name).getD alert.klass.level

/-- Module-level `get_alert_policy`: the override policy for the alert's
class name, defaulting to `DEFAULT_POLICY` (not to any class attribute). -/
def get_alert_policy (alert : Alert) (classes : ClassesConfig) : Policy :=
  (overridePolicy classes alert.klass.name).getD DEFAULT_POLICY

/-- The lookup in `AlertService.__handle_alert`: the first stored alert whose
`(node, source, klass, key)` tuple equals the observed alert's tuple
(`[0]` of the comprehension; `IndexError` becomes `none`). -/
def findExisting (alerts : List Alert) (alert : Alert) : Option Alert :=
  alerts.find? (fun a =>
    a.node = alert.node ∧ a.source = alert.source ∧ a.klass = alert.klass ∧ a.key = alert.key)

/-- The body of `AlertService.__handle_alert`, reconciling one observed alert
against the store. `fresh` stands for the `uuid.uuid4()` value generated when
no existing alert matches; `now` is `datetime.utcnow()` (a naive instant). -/
def handle_alert (store : List Alert) (fresh : String) (now : Int) (alert : Alert) : Alert :=
  match findExisting store alert with
  | none =>
      { alert with
        uuid := fresh
        datetime := some (PyDatetime.toNaiveUtc (alert.datetime.getD ⟨now, none⟩))
        last_occurrence := some ⟨now, none⟩
        dismissed := false }
  | some existing =>
      { alert with
        uuid := existing.uuid
        datetime := existing.datetime
        last_occurrence := some ⟨now, none⟩
        dismissed := existing.dismissed }

/-- The body of `AlertService.oneshot_create` after the class's `create` hook
returned an alert: stamp `source = ""` and `node` (the local node), reconcile
through `__handle_alert`, and replace any alert with the same uuid in the
store. Returns the new store and the reconciled alert. -/
def oneshot_create (node : String) (store : List Alert) (fresh : String) (now : Int)
    (created : Alert) : List Alert × Alert :=
  let stamped := { created with source := "", node := node }
  let alert := handle_alert store fresh now stamped
  (store.filter (fun a => a.uuid ≠ alert.uuid) ++ [alert], alert)

/-- Python dict insertion: an existing key keeps its position and gets the new
value, a new key is appended. -/
def dictInsert (k : String) (v : Alert) : List (String × Alert) → List (String × Alert)
  | [] => [(k, v)]
  | (k', v') :: rest => if k' = k then (k', v) :: rest else (k', v') :: dictInsert k v rest

/-- The dict comprehension `{alert.uuid: alert for alert in alerts}` of
`AlertPolicy.receive_alerts`. -/
def alertsDict (alerts : List Alert) : List (String × Alert) :=
  alerts.foldl (fun d a => dictInsert a.uuid a d) []

/-- The `AlertPolicy` class: a bucketing function from the current time to a
bucket key, the last observed bucket key (initially Python `None`), and the
uuid-keyed dict of alerts observed in that bucket. The time and bucket types
are parameters; `key` returning `none` models a bucketing function that
returns Python `None` (as `NEVER`'s does), which compares equal to the
initial `last_key_value = None`. -/
structure AlertPolicy (τ β : Type) where
  key : τ → Option β
  last_key_value : Option β := none
  last_key_value_alerts : List (String × Alert) := []

/-- The body of `AlertPolicy.receive_alerts`: if the bucket key is unchanged
return empty diffs and leave the state alone; otherwise diff the tracked dict
against the current one by uuid and replace the tracked bucket and dict. -/
def AlertPolicy.receive_alerts {τ β : Type} [DecidableEq β] (p : AlertPolicy τ β)
    (now : τ) (currentAlerts : List Alert) :
    (List Alert × List Alert) × AlertPolicy τ β :=
  let dict := alertsDict currentAlerts
  let k := p.key now
  if k = p.last_key_value then
    (([], []), p)
  else
    let gone_alerts := (p.last_key_value_alerts.map Prod.snd).filter
      (fun a => (dict.lookup a.uuid).isNone)
    let new_alerts := (dict.map Prod.snd).filter
      (fun a => (p.last_key_value_alerts.lookup a.uuid).isNone)
    ((gone_alerts, new_alerts),
     { p with last_key_value := k, last_key_value_alerts := dict })

/-- The body of `AlertPolicy.delete_alert`: pop the alert's uuid from the
tracked dict. -/
def AlertPolicy.delete_alert {τ β : Type} (p : AlertPolicy τ β) (alert : Alert) :
    AlertPolicy τ β :=
  { p with last_key_value_alerts := p.last_key_value_alerts.filter (fun kv => kv.1 ≠ alert.uuid) }

/-- A current time as the policy bucketing functions of
`AlertService.initialize` consume it: `date` and `hour` stand for `d.date()`
and `d.hour`, `instant` for the full datetime value itself (used by
`IMMEDIATELY`, whose bucketing function is the identity). -/
structure WallClock where
  date : Int
  hour : Int
  instant : Int
deriving DecidableEq, Repr

/-- Bucket keys produced by the four bucketing functions. -/
inductive BucketVal where
  | instant (i : Int)
  | hourOf (date : Int) (hour : Int)
  | dayOf (date : Int)
deriving DecidableEq, Repr

/-- The bucketing functions installed by `AlertService.initialize`:
`IMMEDIATELY` is the identity (`lambda now: now`), `HOURLY` is
`lambda d: (d.date(), d.hour)`, `DAILY` is `lambda d: d.date()`, `NEVER` is
`lambda d: None`. -/
def policy_key_fn : Policy → WallClock → Option BucketVal
  | Policy.IMMEDIATELY => fun d => some (BucketVal.instant d.instant)
  | Policy.HOURLY => fun d => some (BucketVal.hourOf d.date d.hour)
  | Policy.DAILY => fun d => some (BucketVal.dayOf d.date)
  | Policy.NEVER => fun _ => none

/-- A freshly constructed policy as in `AlertService.initialize`. -/
def mkPolicy (p : Policy) : AlertPolicy WallClock BucketVal :=
  { key := policy_key_fn p }

/-- The per-service filter of `AlertService.send_alerts` on the full current
alert list: class applies to the product, effective level at least the
service's level, effective policy not `NEVER`. -/
def serviceFilterAll (product : String) (classes : ClassesConfig) (service_level : Int)
    (alerts : List Alert) : List Alert :=
  alerts.filter (fun a =>
    product ∈ a.klass.products ∧
    get_alert_level a classes ≥ service_level ∧
    get_alert_policy a classes ≠ Policy.NEVER)

/-- The per-service filter of `AlertService.send_alerts` on the gone/new
lists: class applies to the product, effective level at least the service's
level, effective policy equal to the policy being processed. -/
def serviceFilterDiff (product : String) (classes : ClassesConfig) (service_level : Int)
    (policy_name : Policy) (alerts : List Alert) : List Alert :=
  alerts.filter (fun a =>
    product ∈ a.klass.products ∧
    get_alert_level a classes ≥ service_level ∧
    get_alert_policy a classes = policy_name)

/-- The churn-cancellation pairing test of `AlertService.send_alerts`:
`gone_alert.klass == new_alert.klass and gone_alert.key == new_alert.key`. -/
def churnMatch (g n : Alert) : Bool :=
  g.klass = n.klass ∧ g.key = n.key

/-- Removal of the first element of the new list pairing with `g`
(`service_new_alerts.remove(new_alert)` for the `new_alert` found first). -/
def eraseFirstMatch (g : Alert) : List Alert → List Alert
  | [] => []
  | n :: rest => if churnMatch g n then rest else n :: eraseFirstMatch g rest

/-- The churn-cancellation double loop of `AlertService.send_alerts`: each
gone alert in order is paired with the first remaining new alert of the same
class and key; a paired gone alert and its partner are both dropped, an
unpaired gone alert is kept. -/
def cancel_churn : List Alert → List Alert → List Alert × List Alert
  | [], new_alerts => ([], new_alerts)
  | g :: gs, new_alerts =>
    if (new_alerts.find? (churnMatch g)).isSome then
      cancel_churn gs (eraseFirstMatch g new_alerts)
    else
      let r := cancel_churn gs new_alerts
      (g :: r.1, r.2)

/-- Outcome of one service within one policy iteration of
`AlertService.send_alerts`: either the backend's `send` is invoked with the
three filtered lists, or the service is skipped. -/
inductive ServiceAction where
  | skipped
  | sent (alerts gone_alerts new_alerts : List Alert)
deriving DecidableEq, Repr

/-- The per-service body of `AlertService.send_alerts` for one policy:
filter the three lists, cancel churn, skip when the filtered gone and new
lists are both empty, skip when the backend factory is missing or fails
(`factory_ok = false`), drop dismissed alerts from all three lists, and
invoke `send` when at least one list is still non-empty. -/
def dispatch_service (product : String) (classes : ClassesConfig) (policy_name : Policy)
    (service_level : Int) (factory_ok : Bool)
    (alerts gone_alerts new_alerts : List Alert) : ServiceAction :=
  let service_alerts := serviceFilterAll product classes service_level alerts
  let sg := serviceFilterDiff product classes service_level policy_name gone_alerts
  let sn := serviceFilterDiff product classes service_level policy_name new_alerts
  let c := cancel_churn sg sn
  if c.1 = [] ∧ c.2 = [] then
    ServiceAction.skipped
  else if ¬ factory_ok then
    ServiceAction.skipped
  else
    let a2 := service_alerts.filter (fun a => ¬ a.dismissed)
    let g2 := c.1.filter (fun a => ¬ a.dismissed)
    let n2 := c.2.filter (fun a => ¬ a.dismissed)
    if a2 ≠ [] ∨ g2 ≠ [] ∨ n2 ≠ [] then ServiceAction.sent a2 g2 n2
    else ServiceAction.skipped

/-- Per-source rolling execution statistics, the default entry of
`AlertService.sources_run_times` being `⟨[], 0, 0, 0⟩`. -/
structure SourceRunStat where
  last : List ℚ
  max : ℚ
  total_count : Nat
  total_time : ℚ
deriving DecidableEq, Repr

/-- The `finally` block of `AlertService.__run_source`: keep the last ten run
times (`source_stat["last"][-9:] + [run_time]`), track the maximum, and
accumulate count and total time. -/
def statUpdate (s : SourceRunStat) (run_time : ℚ) : SourceRunStat :=
  { last := s.last.drop (s.last.length - 9) ++ [run_time]
    max := max s.max run_time
    total_count := s.total_count + 1
    total_time := s.total_time + run_time }

/-- The `avg` computation of `AlertService.sources_stats`:
`total_time / total_count if total_count != 0 else 0`. -/
def stat_avg (v : SourceRunStat) : ℚ :=
  if v.total_count ≠ 0 then v.total_time / (v.total_count : ℚ) else 0

/-- The body of `AlertService.sources_stats`: entries sorted by source name,
each carrying the guarded average alongside the raw statistics. -/
def sources_stats (stats : List (String × SourceRunStat)) :
    List (String × ℚ × SourceRunStat) :=
  (stats.mergeSort (fun a b => decide (a.1 ≤ b.1))).map
    (fun kv => (kv.1, stat_avg kv.2, kv.2))

/-- The `AlertSourceRunFailedAlertClass` defined in `alert.py`: category
SYSTEM, level CRITICAL, hidden from the category listing, not one-shot. The
numeric CRITICAL value and the default `products` set come from the
`AlertClass`/`AlertLevel` base definitions outside the sources; the values
used here are immaterial to the theorems below. -/
def AlertSourceRunFailedAlertClass : AlertClassDef :=
  { name := "AlertSourceRunFailed"
    title := "Alert Check Failed"
    level := 5
    products := ["SCALE", "SCALE_ENTERPRISE"]
    exclude_from_list := true
    is_one_shot := false
    expires_after := none }

/-- Modelled from the spec: the `Alert` constructor lives in
`middlewared/alert/base.py`, which is not among the sources; per the spec the
synthetic run-failure alert is "keyed by source name", and a freshly
constructed alert carries no uuid or timestamps and is not dismissed. The
`args` passed at the construction site in `__run_source` are in the sources. -/
def mkSourceRunFailedAlert (source_name message : String) : Alert :=
  { klass := AlertSourceRunFailedAlertClass
    node := ""
    source := ""
    key := some source_name
    uuid := ""
    args := [("source_name", source_name), ("traceback", message)]
    datetime := none
    last_occurrence := none
    dismissed := false
    mail := none }

/-- Outcome of one invocation of an alert source's `check()`:
a list of alerts, an `UnavailableException`, or an unexpected exception. -/
inductive CheckOutcome where
  | ok (alerts : List Alert)
  | unavailable
  | failure (message : String)
deriving Repr

/-- The key deduplication loop of `AlertService.__run_source`: the first
occurrence of each key wins. The first argument accumulates the `keys` set. -/
def dedupByKey : List (Option String) → List Alert → List Alert
  | _, [] => []
  | seen, a :: rest =>
    if a.key ∈ seen then dedupByKey seen rest
    else a :: dedupByKey (a.key :: seen) rest

/-- Result of one `AlertService.__run_source` call: the
`alert_sources_errors` set and this source's statistics afterwards, whether a
log line was emitted, and either the returned alert list or a propagated
`UnavailableException` (`Except.error ()`). -/
structure RunSourceResult where
  errors : List String
  stat : SourceRunStat
  logged : Bool
  outcome : Except Unit (List Alert)

/-- The body of `AlertService.__run_source`: re-raise `UnavailableException`;
convert any other exception into a single synthetic
`AlertSourceRunFailed` alert and log it only when the source is not already
in `alert_sources_errors` (then add it); on success remove the source from
`alert_sources_errors`. In every case update the rolling statistics
(`finally`), and on every non-raising path deduplicate the alerts by key and
stamp their `source`. -/
def run_source (errors : List String) (stat : SourceRunStat) (source_name : String)
    (res : CheckOutcome) (run_time : ℚ) : RunSourceResult :=
  let stat' := statUpdate stat run_time
  match res with
  | CheckOutcome.unavailable =>
      { errors := errors, stat := stat', logged := false, outcome := Except.error () }
  | CheckOutcome.failure msg =>
      let logged := source_name ∉ errors
      let errors' := if source_name ∈ errors then errors else source_name :: errors
      let alerts := [mkSourceRunFailedAlert source_name msg]
      let alerts := (dedupByKey [] alerts).map (fun a => { a with source := source_name })
      { errors := errors', stat := stat', logged := logged, outcome := Except.ok alerts }
  | CheckOutcome.ok alerts =>
      let errors' := errors.filter (fun s => s ≠ source_name)
      let alerts := (dedupByKey [] alerts).map (fun a => { a with source := source_name })
      { errors := errors', stat := stat', logged := false, outcome := Except.ok alerts }

/-- Repeated `__run_source` calls for one source, returning the final
`alert_sources_errors` set and how many log lines were emitted in total. -/
def run_source_log_count (source_name : String) :
    List String → SourceRunStat → List (CheckOutcome × ℚ) → List String × Nat
  | errors, _, [] => (errors, 0)
  | errors, stat, (res, t) :: rest =>
    let r := run_source errors stat source_name res t
    let rec_result := run_source_log_count source_name r.errors r.stat rest
    (rec_result.1, (if r.logged then 1 else 0) + rec_result.2)

/-- The body of `AlertService.__should_expire_alert`: a one-shot alert whose
class declares `expires_after` expires when its last occurrence predates
`now` minus that duration. A reconciled alert always carries a last
occurrence; an absent one is treated as not expiring. -/
def should_expire_alert (now : Int) (alert : Alert) : Bool :=
  if alert.klass.is_one_shot then
    match alert.klass.expires_after with
    | some ttl =>
        match alert.last_occurrence with
        | some t => decide (t.wall < now - ttl)
        | none => false
    | none => false
  else false

/-- The body of `AlertService.__expire_alerts`. -/
def expire_alerts (now : Int) (alerts : List Alert) : List Alert :=
  alerts.filter (fun a => ¬ should_expire_alert now a)

/-- The body of `AlertService.process_alerts`: `pre_start` and `pre_end` are
the two `__should_run_or_send_alerts()` evaluations (system ready, not in
backup role, no failover in progress), `run_result` abstracts the store as
`__run_alerts` leaves it. Returns the resulting store and whether
`alert.send_alerts` was dispatched. -/
def process_alerts (pre_start pre_end : Bool) (store run_result : List Alert)
    (now : Int) : List Alert × Bool :=
  if ¬ pre_start then (store, false)
  else
    let valid_alerts := store
    let after_expire := expire_alerts now run_result
    if ¬ pre_end then (valid_alerts, false)
    else (after_expire, true)

/-- The body of `AlertSerializer.should_show_alert`: the class must apply to
the product type and the class's override policy must not be `NEVER` (the
raw `.get("policy")` of the override dict, with no default). -/
def should_show_alert (product : String) (classes : ClassesConfig) (alert : Alert) : Bool :=
  if product ∉ alert.klass.products then false
  else if overridePolicy classes alert.klass.name = some Policy.NEVER then false
  else true

/-- The sort key `(-get_alert_level(alert, classes).value, alert.klass.title,
alert.datetime)` of `AlertService.list`, compared lexicographically. A listed
alert always carries a first-seen datetime (reconciliation sets one); an
absent one is read as wall reading 0. -/
def dtKey (alert : Alert) : Int :=
  (alert.datetime.map PyDatetime.wall).getD 0

/-- Lexicographic comparison of the `AlertService.list` sort keys. -/
def list_le (classes : ClassesConfig) (a b : Alert) : Bool :=
  if -(get_alert_level a classes) ≠ -(get_alert_level b classes) then
    decide (-(get_alert_level a classes) < -(get_alert_level b classes))
  else if a.klass.title ≠ b.klass.title then decide (a.klass.title < b.klass.title)
  else decide (dtKey a ≤ dtKey b)

/-- The body of `AlertService.list`: sort the store by the key above (Python
`sorted` is a stable merge sort) and keep the alerts passing
`should_show_alert`. -/
def list_alerts (product : String) (classes : ClassesConfig) (alerts : List Alert) :
    List Alert :=
  (alerts.mergeSort (list_le classes)).filter (should_show_alert product classes)

/-- Sample alert class used to instantiate theorems on concrete inputs. -/
def diskClass : AlertClassDef :=
  { name := "DiskFail"
    title := "Disk Failed"
    level := 4
    products := ["SCALE"]
    exclude_from_list := false
    is_one_shot := false
    expires_after := none }

/-- A stored, dismissed alert for (node A, source "disk", class DiskFail,
key "sda") with identifier `U`. -/
def existingDisk : Alert :=
  { klass := diskClass
    node := "A"
    source := "disk"
    key := some "sda"
    uuid := "U"
    args := []
    datetime := some ⟨100, none⟩
    last_occurrence := some ⟨100, none⟩
    dismissed := true
    mail := none }

/-- A fresh observation of the same (node, source, class, key) tuple. -/
def observedDisk : Alert :=
  { existingDisk with uuid := "", dismissed := false, datetime := none, last_occurrence := none }

/-- Normalization always yields a timezone-naive value. -/
theorem toNaiveUtc_tz_none (d : PyDatetime) : (PyDatetime.toNaiveUtc d).tz = none := by
  unfold PyDatetime.toNaiveUtc
  cases h : d.tz with
  | none => simpa using h
  | some off => rfl

/-- Case analysis of `handle_alert`, shared helper: the matched branch copies
uuid, dismissed and first-seen from the existing alert, the unmatched branch
assigns the fresh uuid, clears dismissed and normalizes the first-seen
timestamp; both refresh the last occurrence. -/
theorem handle_alert_cases (store : List Alert) (fresh : String) (now : Int)
    (alert : Alert) :
    (findExisting store alert = none ↔
      ∀ a ∈ store,
        ¬(a.node = alert.node ∧ a.source = alert.source ∧ a.klass = alert.klass ∧
          a.key = alert.key)) ∧
    (∀ existing, findExisting store alert = some existing →
      existing ∈ store ∧
      existing.node = alert.node ∧ existing.source = alert.source ∧
      existing.klass = alert.klass ∧ existing.key = alert.key ∧
      (handle_alert store fresh now alert).uuid = existing.uuid ∧
      (handle_alert store fresh now alert).dismissed = existing.dismissed ∧
      (handle_alert store fresh now alert).datetime = existing.datetime ∧
      (handle_alert store fresh now alert).last_occurrence = some ⟨now, none⟩) ∧
    (findExisting store alert = none →
      (handle_alert store fresh now alert).uuid = fresh ∧
      (handle_alert store fresh now alert).dismissed = false ∧
      (∀ d, alert.datetime = some d →
        (handle_alert store fresh now alert).datetime = some (PyDatetime.toNaiveUtc d)) ∧
      (alert.datetime = none →
        (handle_alert store fresh now alert).datetime = some ⟨now, none⟩) ∧
      (∀ d, (handle_alert store fresh now alert).datetime = some d → d.tz = none) ∧
      (handle_alert store fresh now alert).last_occurrence = some ⟨now, none⟩) := by
  refine ⟨?_, ?_, ?_⟩
  · unfold findExisting
    rw [List.find?_eq_none]
    constructor
    · intro h a ha
      have := h a ha
      simpa using this
    · intro h a ha
      have := h a ha
      simpa using this
  · intro existing hfind
    have hmem := List.mem_of_find?_eq_some hfind
    have hprop := List.find?_some hfind
    simp only [decide_eq_true_eq] at hprop
    refine ⟨hmem, hprop.1, hprop.2.1, hprop.2.2.1, hprop.2.2.2, ?_⟩
    unfold handle_alert
    rw [hfind]
    exact ⟨rfl, rfl, rfl, rfl⟩
  · intro hfind
    unfold handle_alert
    rw [hfind]
    refine ⟨rfl, rfl, ?_, ?_, ?_, rfl⟩
    · intro d hd
      simp [hd]
    · intro hd
      simp [hd, PyDatetime.toNaiveUtc]
    · intro d hd
      simp only [Option.some.injEq] at hd
      rw [← hd]
      exact toNaiveUtc_tz_none _

/-- C1: reconciliation preserves alert identity. When the store contains an
alert with the observed alert's (node, source, class, key) tuple —
equivalently, when `findExisting` returns it — the reconciled alert takes
that alert's uuid, dismissed flag and first-seen timestamp, and its last
occurrence is refreshed to now; when no stored alert matches the tuple, the
reconciled alert takes the freshly generated uuid, is not dismissed, takes
its first-seen timestamp from the observation (or now), normalized to a
timezone-naive UTC instant, and its last occurrence is now. -/
theorem handle_alert_reconciliation (store : List Alert) (fresh : String) (now : Int)
    (alert : Alert) :
    (findExisting store alert = none ↔
      ∀ a ∈ store,
        ¬(a.node = alert.node ∧ a.source = alert.source ∧ a.klass = alert.klass ∧
          a.key = alert.key)) ∧
    (∀ existing, findExisting store alert = some existing →
      existing ∈ store ∧
      existing.node = alert.node ∧ existing.source = alert.source ∧
      existing.klass = alert.klass ∧ existing.key = alert.key ∧
      (handle_alert store fresh now alert).uuid = existing.uuid ∧
      (handle_alert store fresh now alert).dismissed = existing.dismissed ∧
      (handle_alert store fresh now alert).datetime = existing.datetime ∧
      (handle_alert store fresh now alert).last_occurrence = some ⟨now, none⟩) ∧
    (findExisting store alert = none →
      (handle_alert store fresh now alert).uuid = fresh ∧
      (handle_alert store fresh now alert).dismissed = false ∧
      (∀ d, alert.datetime = some d →
        (handle_alert store fresh now alert).datetime = some (PyDatetime.toNaiveUtc d)) ∧
      (alert.datetime = none →
        (handle_alert store fresh now alert).datetime = some ⟨now, none⟩) ∧
      (∀ d, (handle_alert store fresh now alert).datetime = some d → d.tz = none) ∧
      (handle_alert store fresh now alert).last_occurrence = some ⟨now, none⟩) :=
  handle_alert_cases store fresh now alert

/-- Witness for C1: reconciling the observation against a store holding the
matching dismissed alert yields identifier `U`, dismissed true, first-seen
100 and last occurrence 200; against the empty store it yields the fresh
identifier, dismissed false and first-seen now. -/
theorem handle_alert_reconciliation_witness :
    ((handle_alert [existingDisk] "fresh-1" 200 observedDisk).uuid = "U" ∧
     (handle_alert [existingDisk] "fresh-1" 200 observedDisk).dismissed = true ∧
     (handle_alert [existingDisk] "fresh-1" 200 observedDisk).datetime = some ⟨100, none⟩ ∧
     (handle_alert [existingDisk] "fresh-1" 200 observedDisk).last_occurrence =
       some ⟨200, none⟩) ∧
    ((handle_alert [] "fresh-1" 200 observedDisk).uuid = "fresh-1" ∧
     (handle_alert [] "fresh-1" 200 observedDisk).dismissed = false ∧
     (handle_alert [] "fresh-1" 200 observedDisk).datetime = some ⟨200, none⟩) := by
  have h1 := (handle_alert_reconciliation [existingDisk] "fresh-1" 200 observedDisk).2.1
    existingDisk (by rfl)
  have h2 := (handle_alert_reconciliation [] "fresh-1" 200 observedDisk).2.2 (by rfl)
  refine ⟨⟨h1.2.2.2.2.2.1, ?_, ?_, h1.2.2.2.2.2.2.2.2⟩,
    h2.1, h2.2.1, h2.2.2.2.1 (by rfl)⟩
  · rw [h1.2.2.2.2.2.2.1]
    rfl
  · rw [h1.2.2.2.2.2.2.2.1]
    rfl

/-- Sample one-shot alert class. -/
def oneShotClass : AlertClassDef :=
  { name := "VolumeStatus"
    title := "Volume Status"
    level := 3
    products := ["SCALE"]
    exclude_from_list := false
    is_one_shot := true
    expires_after := none }

/-- A stored one-shot alert recorded under node B. -/
def peerOneShot : Alert :=
  { klass := oneShotClass
    node := "B"
    source := ""
    key := some "x"
    uuid := "U"
    args := []
    datetime := some ⟨100, none⟩
    last_occurrence := some ⟨100, none⟩
    dismissed := true
    mail := none }

/-- The same stored one-shot alert recorded under node A. -/
def localOneShot : Alert :=
  { peerOneShot with node := "A" }

/-- An alert as returned by a one-shot class's `create` hook, before
`oneshot_create` stamps source and node. -/
def createdOneShot : Alert :=
  { klass := oneShotClass
    node := ""
    source := ""
    key := some "x"
    uuid := ""
    args := []
    datetime := none
    last_occurrence := none
    dismissed := false
    mail := none }

/-- Counterexample to C2: the store holds an alert of the same class and key
as the one-shot creation, but under node B while the local node is A; the
created alert does not inherit its identifier, dismissed flag or first-seen
timestamp — it gets the fresh identifier with dismissed false, because
`oneshot_create` reconciles by the full (node, source, class, key) tuple,
not by (class, key) alone. -/
theorem oneshot_dedup_counterexample :
    peerOneShot.klass = createdOneShot.klass ∧
    peerOneShot.key = createdOneShot.key ∧
    peerOneShot.dismissed = true ∧
    (oneshot_create "A" [peerOneShot] "fresh-2" 300 createdOneShot).2.uuid = "fresh-2" ∧
    (oneshot_create "A" [peerOneShot] "fresh-2" 300 createdOneShot).2.uuid ≠ peerOneShot.uuid ∧
    (oneshot_create "A" [peerOneShot] "fresh-2" 300 createdOneShot).2.dismissed = false ∧
    (oneshot_create "A" [peerOneShot] "fresh-2" 300 createdOneShot).2.datetime ≠
      peerOneShot.datetime := by
  decide

/-- C2 as amended: one-shot creation reconciles through the same
(node, source, class, key) rule as polled alerts, after stamping
`source = ""` and `node` = the local node. The existing alert's identifier,
dismissed flag and first-seen timestamp are preserved exactly when the store
contains an alert with the local node, empty source and matching class and
key; otherwise the created alert receives the fresh identifier and
dismissed = false. -/
theorem oneshot_create_dedup (node : String) (store : List Alert) (fresh : String)
    (now : Int) (created : Alert) :
    (∀ e, findExisting store { created with source := "", node := node } = some e →
      e ∈ store ∧ e.node = node ∧ e.source = "" ∧ e.klass = created.klass ∧
      e.key = created.key ∧
      (oneshot_create node store fresh now created).2.uuid = e.uuid ∧
      (oneshot_create node store fresh now created).2.dismissed = e.dismissed ∧
      (oneshot_create node store fresh now created).2.datetime = e.datetime) ∧
    (findExisting store { created with source := "", node := node } = none →
      (oneshot_create node store fresh now created).2.uuid = fresh ∧
      (oneshot_create node store fresh now created).2.dismissed = false) := by
  have h := handle_alert_cases store fresh now { created with source := "", node := node }
  constructor
  · intro e he
    have := h.2.1 e he
    exact ⟨this.1, this.2.1, this.2.2.1, this.2.2.2.1, this.2.2.2.2.1,
      this.2.2.2.2.2.1, this.2.2.2.2.2.2.1, this.2.2.2.2.2.2.2.1⟩
  · intro he
    have := h.2.2 he
    exact ⟨this.1, this.2.1⟩

/-- Witness for C2 as amended: with the matching alert stored under the local
node A, creation preserves identifier `U`, dismissed true and first-seen 100;
with an empty store, creation yields the fresh identifier, not dismissed. -/
theorem oneshot_create_dedup_witness :
    ((oneshot_create "A" [localOneShot] "fresh-2" 300 createdOneShot).2.uuid = "U" ∧
     (oneshot_create "A" [localOneShot] "fresh-2" 300 createdOneShot).2.dismissed = true ∧
     (oneshot_create "A" [localOneShot] "fresh-2" 300 createdOneShot).2.datetime =
       some ⟨100, none⟩) ∧
    ((oneshot_create "A" [] "fresh-2" 300 createdOneShot).2.uuid = "fresh-2" ∧
     (oneshot_create "A" [] "fresh-2" 300 createdOneShot).2.dismissed = false) := by
  have h1 := (oneshot_create_dedup "A" [localOneShot] "fresh-2" 300 createdOneShot).1
    localOneShot (by rfl)
  have h2 := (oneshot_create_dedup "A" [] "fresh-2" 300 createdOneShot).2 (by rfl)
  refine ⟨⟨h1.2.2.2.2.2.1, ?_, ?_⟩, h2⟩
  · rw [h1.2.2.2.2.2.2.1]
    rfl
  · rw [h1.2.2.2.2.2.2.2]
    rfl

/-- Inserting an absent key appends the pair. -/
theorem dictInsert_of_key_not_mem (k : String) (v : Alert) (d : List (String × Alert))
    (h : k ∉ d.map Prod.fst) : dictInsert k v d = d ++ [(k, v)] := by
  induction d with
  | nil => rfl
  | cons kv rest ih =>
    simp only [List.map_cons, List.mem_cons] at h
    push_neg at h
    simp only [dictInsert, if_neg (Ne.symm h.1), List.cons_append, List.cons.injEq, true_and]
    exact ih h.2

/-- Folding `dictInsert` over alerts with pairwise-distinct uuids, none of
which is already a key of the accumulator, appends the uuid-keyed pairs. -/
theorem alertsDict_aux (cur : List Alert) :
    ∀ d : List (String × Alert), (∀ a ∈ cur, a.uuid ∉ d.map Prod.fst) →
    (cur.map Alert.uuid).Nodup →
    cur.foldl (fun d a => dictInsert a.uuid a d) d = d ++ cur.map (fun a => (a.uuid, a)) := by
  induction cur with
  | nil => intro d _ _; simp
  | cons a rest ih =>
    intro d hd hnd
    simp only [List.foldl_cons]
    rw [dictInsert_of_key_not_mem a.uuid a d (hd a (List.mem_cons_self a rest))]
    rw [ih (d ++ [(a.uuid, a)]) ?_ ?_]
    · simp
    · intro b hb
      simp only [List.map_append, List.mem_append, List.map_cons, List.map_nil,
        List.mem_singleton]
      push_neg
      refine ⟨hd b (List.mem_cons_of_mem a hb), ?_⟩
      simp only [List.map_cons, List.nodup_cons] at hnd
      intro hbe
      exact hnd.1 (hbe ▸ List.mem_map_of_mem Alert.uuid hb)
    · simp only [List.map_cons, List.nodup_cons] at hnd
      exact hnd.2

/-- With pairwise-distinct uuids the Python dict comprehension is the plain
uuid-keyed pairing, in order. -/
theorem alertsDict_eq (cur : List Alert) (hnd : (cur.map Alert.uuid).Nodup) :
    alertsDict cur = cur.map (fun a => (a.uuid, a)) := by
  have := alertsDict_aux cur [] (by intro a _; simp) hnd
  simpa [alertsDict] using this

/-- Association-list lookup misses exactly the absent keys. -/
theorem lookup_eq_none_iff (d : List (String × Alert)) (u : String) :
    d.lookup u = none ↔ u ∉ d.map Prod.fst := by
  induction d with
  | nil => simp [List.lookup]
  | cons kv rest ih =>
    obtain ⟨k, v⟩ := kv
    by_cases h : u = k
    · subst h
      simp [List.lookup]
    · have hb : (u == k) = false := beq_eq_false_iff_ne.mpr h
      simp only [List.lookup, hb, List.map_cons, List.mem_cons]
      rw [ih]
      constructor
      · intro hn hc
        rcases hc with hc | hc
        · exact h hc
        · exact hn hc
      · intro hn hc
        exact hn (Or.inr hc)

/-- Boolean form of the previous lemma, matching the filter predicates of
`receive_alerts`. -/
theorem lookup_isNone_eq (d : List (String × Alert)) (u : String) :
    (d.lookup u).isNone = decide (u ∉ d.map Prod.fst) := by
  rcases hl : d.lookup u with _ | v
  · simp only [Option.isNone_none]
    symm
    exact decide_eq_true ((lookup_eq_none_iff d u).mp hl)
  · simp only [Option.isNone_some]
    symm
    rw [decide_eq_false_iff_not]
    intro hn
    rw [(lookup_eq_none_iff d u).mpr hn] at hl
    exact Option.noConfusion hl

/-- Unfolding of `receive_alerts` when the bucket key changed. -/
theorem receive_alerts_of_ne {τ β : Type} [DecidableEq β] (p : AlertPolicy τ β) (now : τ)
    (cur : List Alert) (h : p.key now ≠ p.last_key_value) :
    p.receive_alerts now cur =
      (((p.last_key_value_alerts.map Prod.snd).filter
          (fun a => ((alertsDict cur).lookup a.uuid).isNone),
        ((alertsDict cur).map Prod.snd).filter
          (fun a => (p.last_key_value_alerts.lookup a.uuid).isNone)),
       { p with last_key_value := p.key now, last_key_value_alerts := alertsDict cur }) := by
  unfold AlertPolicy.receive_alerts
  simp [if_neg h]

/-- C3: policy throttling. If the bucketing function applied to `now` equals
the previously recorded bucket key, `receive_alerts` returns empty gone and
new lists and leaves the policy state unchanged; otherwise (for a current
alert list with pairwise-distinct identifiers) gone is exactly the
previously tracked alerts whose identifier is absent from the current list,
new is exactly the current alerts whose identifier is absent from the
tracked set, and the tracked bucket key and tracked alert set are replaced
with the current ones. -/
theorem receive_alerts_spec {τ β : Type} [DecidableEq β] (p : AlertPolicy τ β) (now : τ)
    (cur : List Alert) (hnd : (cur.map Alert.uuid).Nodup) :
    (p.key now = p.last_key_value →
      p.receive_alerts now cur = (([], []), p)) ∧
    (p.key now ≠ p.last_key_value →
      (p.receive_alerts now cur).1.1 =
        (p.last_key_value_alerts.map Prod.snd).filter
          (fun a => decide (a.uuid ∉ cur.map Alert.uuid)) ∧
      (p.receive_alerts now cur).1.2 =
        cur.filter (fun a => decide (a.uuid ∉ p.last_key_value_alerts.map Prod.fst)) ∧
      (p.receive_alerts now cur).2.last_key_value = p.key now ∧
      (p.receive_alerts now cur).2.last_key_value_alerts.map Prod.snd = cur ∧
      (p.receive_alerts now cur).2.key = p.key) := by
  have hkeys : (cur.map fun a => (a.uuid, a)).map Prod.fst = cur.map Alert.uuid := by
    rw [List.map_map]
    rfl
  have hvals : (cur.map fun a => (a.uuid, a)).map Prod.snd = cur := by
    rw [List.map_map]
    exact List.map_id cur
  constructor
  · intro h
    unfold AlertPolicy.receive_alerts
    simp [h]
  · intro h
    rw [receive_alerts_of_ne p now cur h]
    refine ⟨?_, ?_, rfl, ?_, rfl⟩
    · apply List.filter_congr
      intro a _
      rw [lookup_isNone_eq, alertsDict_eq cur hnd, hkeys]
    · rw [alertsDict_eq cur hnd, hvals]
      apply List.filter_congr
      intro a _
      rw [lookup_isNone_eq]
    · rw [alertsDict_eq cur hnd, hvals]

/-- An `HOURLY` policy that last emitted in hour 10, tracking the sample
disk alert. -/
def hourlyPolicy : AlertPolicy WallClock BucketVal :=
  { key := policy_key_fn Policy.HOURLY
    last_key_value := some (BucketVal.hourOf 0 10)
    last_key_value_alerts := [("U", existingDisk)] }

/-- A current alert with an identifier distinct from the tracked one. -/
def vAlert : Alert :=
  { existingDisk with uuid := "V", dismissed := false }

/-- Witness for C3: a second call in the same clock hour returns empty sets
and leaves the policy unchanged even though the alert list changed; a call
in the next hour reports the tracked alert as gone and the current alert as
new, and replaces the tracked set. -/
theorem receive_alerts_spec_witness :
    (hourlyPolicy.receive_alerts ⟨0, 10, 1030⟩ [vAlert] = (([], []), hourlyPolicy)) ∧
    ((hourlyPolicy.receive_alerts ⟨0, 11, 1100⟩ [vAlert]).1.1 = [existingDisk] ∧
     (hourlyPolicy.receive_alerts ⟨0, 11, 1100⟩ [vAlert]).1.2 = [vAlert] ∧
     (hourlyPolicy.receive_alerts ⟨0, 11, 1100⟩ [vAlert]).2.last_key_value =
       some (BucketVal.hourOf 0 11) ∧
     (hourlyPolicy.receive_alerts ⟨0, 11, 1100⟩ [vAlert]).2.last_key_value_alerts.map
       Prod.snd = [vAlert]) := by
  have h1 := (receive_alerts_spec hourlyPolicy ⟨0, 10, 1030⟩ [vAlert]
    (by decide)).1 (by decide)
  have h2 := (receive_alerts_spec hourlyPolicy ⟨0, 11, 1100⟩ [vAlert]
    (by decide)).2 (by decide)
  refine ⟨h1, ?_, ?_, ?_, h2.2.2.2.1⟩
  · rw [h2.1]
    decide
  · rw [h2.2.1]
    decide
  · rw [h2.2.2.1]
    decide

/-- Erasure only removes elements. -/
theorem mem_of_mem_eraseFirstMatch (g n : Alert) :
    ∀ l : List Alert, n ∈ eraseFirstMatch g l → n ∈ l := by
  intro l
  induction l with
  | nil => intro h; exact absurd h (List.not_mem_nil n)
  | cons x rest ih =>
    simp only [eraseFirstMatch]
    by_cases hx : churnMatch g x
    · rw [if_pos hx]
      intro h
      exact List.mem_cons_of_mem x h
    · rw [if_neg hx]
      intro h
      rcases List.mem_cons.mp h with h | h
      · exact h ▸ List.mem_cons_self x rest
      · exact List.mem_cons_of_mem x (ih h)

/-- The surviving new alerts are among the incoming ones. -/
theorem cancel_churn_new_mem (gs : List Alert) :
    ∀ l n, n ∈ (cancel_churn gs l).2 → n ∈ l := by
  induction gs with
  | nil => intro l n h; exact h
  | cons g rest ih =>
    intro l n h
    simp only [cancel_churn] at h
    by_cases hf : (l.find? (churnMatch g)).isSome
    · rw [if_pos hf] at h
      exact mem_of_mem_eraseFirstMatch g n l (ih _ n h)
    · rw [if_neg hf] at h
      exact ih l n h

/-- No gone alert surviving churn cancellation shares class and key with any
surviving new alert: when a gone alert is kept, no matching new alert was
left, and the new list only shrinks afterwards. -/
theorem cancel_churn_no_match (gs : List Alert) :
    ∀ l g n, g ∈ (cancel_churn gs l).1 → n ∈ (cancel_churn gs l).2 →
      churnMatch g n = false := by
  induction gs with
  | nil => intro l g n hg _; exact absurd hg (List.not_mem_nil g)
  | cons g0 rest ih =>
    intro l g n hg hn
    simp only [cancel_churn] at hg hn
    by_cases hf : (l.find? (churnMatch g0)).isSome
    · rw [if_pos hf] at hg hn
      exact ih _ g n hg hn
    · rw [if_neg hf] at hg hn
      rcases List.mem_cons.mp hg with hgg | hgg
      · subst hgg
        have hnl : n ∈ l := cancel_churn_new_mem rest l n hn
        have hnone : l.find? (churnMatch g) = none := by
          rcases ho : l.find? (churnMatch g) with _ | v
          · rfl
          · rw [ho] at hf
            exact absurd rfl hf
        exact Bool.eq_false_iff.mpr (List.find?_eq_none.mp hnone n hnl)
      · exact ih l g n hgg hn

/-- C4 as amended: churn cancellation is a greedy one-to-one matching — each
gone alert is cancelled together with the first remaining new alert of the
same class and key. Consequently a service's `send` never receives a gone
alert and a new alert that share the same class and the same key (at least
one member of every such pair is removed); when several entries share one
class and key, a surplus member on one side may still be delivered. -/
theorem dispatch_service_churn_cancellation (product : String) (classes : ClassesConfig)
    (policy_name : Policy) (service_level : Int) (factory_ok : Bool)
    (alerts gone_alerts new_alerts : List Alert)
    (a g n : List Alert)
    (h : dispatch_service product classes policy_name service_level factory_ok
      alerts gone_alerts new_alerts = ServiceAction.sent a g n) :
    ∀ ga ∈ g, ∀ na ∈ n, ¬(ga.klass = na.klass ∧ ga.key = na.key) := by
  intro ga hga na hna
  simp only [dispatch_service] at h
  split at h
  · exact absurd h (by simp)
  · split at h
    · exact absurd h (by simp)
    · split at h
      · rw [ServiceAction.sent.injEq] at h
        obtain ⟨-, hgeq, hneq⟩ := h
        rw [← hgeq] at hga
        rw [← hneq] at hna
        have hga' := (List.mem_filter.mp hga).1
        have hna' := (List.mem_filter.mp hna).1
        have := cancel_churn_no_match
          (serviceFilterDiff product classes service_level policy_name gone_alerts)
          (serviceFilterDiff product classes service_level policy_name new_alerts)
          ga na hga' hna'
        intro hc
        rw [show churnMatch ga na = true from decide_eq_true hc] at this
        exact Bool.noConfusion this
      · exact absurd h (by simp)

/-- A gone alert with class DiskFail and key k1. -/
def goneChurn : Alert :=
  { existingDisk with uuid := "G1", dismissed := false, key := some "k1" }

/-- A first new alert with the same class and key k1. -/
def newChurn1 : Alert :=
  { existingDisk with uuid := "N1", dismissed := false, key := some "k1" }

/-- A second new alert with the same class and key k1. -/
def newChurn2 : Alert :=
  { existingDisk with uuid := "N2", dismissed := false, key := some "k1" }

/-- A new alert with the same class but a different key k2. -/
def newOther : Alert :=
  { existingDisk with uuid := "N3", dismissed := false, key := some "k2" }

/-- Counterexample to C4 as stated: the gone alert and both new alerts share
class DiskFail and key k1, yet the dispatch pass delivers the second new
alert to the service's `send` — the cancellation is one-to-one, so the pair
(gone, second new) is not fully removed. -/
theorem dispatch_churn_counterexample :
    goneChurn.klass = newChurn2.klass ∧
    goneChurn.key = newChurn2.key ∧
    dispatch_service "SCALE" [] Policy.IMMEDIATELY 0 true
      [] [goneChurn] [newChurn1, newChurn2] =
      ServiceAction.sent [] [] [newChurn2] := by
  decide

/-- Witness for C4 as amended: a dispatch that delivers a gone alert (key k1)
and a new alert (key k2) certifies that delivered gone/new alerts never share
both class and key. -/
theorem dispatch_service_churn_cancellation_witness :
    ¬(goneChurn.klass = newOther.klass ∧ goneChurn.key = newOther.key) := by
  exact dispatch_service_churn_cancellation "SCALE" [] Policy.IMMEDIATELY 0 true
    [] [goneChurn] [newOther] [] [goneChurn] [newOther] (by decide)
    goneChurn (by decide) newOther (by decide)

/-- A source already recorded as failing emits no further log lines while it
keeps failing, and its membership in the error set is preserved. -/
theorem run_source_log_count_of_mem (s : String) :
    ∀ (l : List (CheckOutcome × ℚ)) (errors : List String) (stat : SourceRunStat),
      s ∈ errors → (∀ x ∈ l, ∃ m, x.1 = CheckOutcome.failure m) →
      (run_source_log_count s errors stat l).2 = 0 ∧
      s ∈ (run_source_log_count s errors stat l).1 := by
  intro l
  induction l with
  | nil => intro errors stat hs _; exact ⟨rfl, hs⟩
  | cons x rest ih =>
    intro errors stat hs hf
    obtain ⟨m, hm⟩ := hf x (List.mem_cons_self x rest)
    obtain ⟨res, t⟩ := x
    simp only at hm
    subst hm
    simp only [run_source_log_count, run_source]
    rw [if_pos hs]
    have hrec := ih errors (statUpdate stat t) hs
      (fun y hy => hf y (List.mem_cons_of_mem _ hy))
    simp only [hrec.1]
    refine ⟨?_, hrec.2⟩
    simp [hs]

/-- C5: source-failure isolation. An unexpected exception in a source check
is not propagated: the run returns (`Except.ok`) exactly one synthetic alert
of class `AlertSourceRunFailed`, keyed by and sourced from the failing
source's name. The failure is logged exactly when the source is not already
recorded in `alert_sources_errors`, and is then recorded; a successful run
removes the record; sources other than the one being run keep their recorded
status on every outcome. Over any non-empty run of consecutive failures of a
source not currently recorded, exactly one log line is emitted in total. -/
theorem run_source_failure_isolation (errors : List String) (stat : SourceRunStat)
    (s msg : String) (t : ℚ) :
    ((run_source errors stat s (CheckOutcome.failure msg) t).outcome =
      Except.ok [{ mkSourceRunFailedAlert s msg with source := s }]) ∧
    ({ mkSourceRunFailedAlert s msg with source := s }).klass =
      AlertSourceRunFailedAlertClass ∧
    ({ mkSourceRunFailedAlert s msg with source := s }).key = some s ∧
    ((run_source errors stat s (CheckOutcome.failure msg) t).logged =
      decide (s ∉ errors)) ∧
    (s ∈ (run_source errors stat s (CheckOutcome.failure msg) t).errors) ∧
    (∀ alerts, s ∉ (run_source errors stat s (CheckOutcome.ok alerts) t).errors) ∧
    (∀ res, ∀ u, u ≠ s →
      (u ∈ (run_source errors stat s res t).errors ↔ u ∈ errors)) ∧
    (s ∉ errors →
      ∀ l : List (CheckOutcome × ℚ), l ≠ [] →
        (∀ x ∈ l, ∃ m, x.1 = CheckOutcome.failure m) →
        (run_source_log_count s errors stat l).2 = 1) := by
  refine ⟨?_, rfl, rfl, ?_, ?_, ?_, ?_, ?_⟩
  · simp [run_source, dedupByKey]
  · by_cases hs : s ∈ errors
    · simp [run_source, hs]
    · simp [run_source, hs]
  · by_cases hs : s ∈ errors
    · simp [run_source, hs]
    · simp [run_source, hs]
  · intro alerts
    simp [run_source]
  · intro res u hu
    cases res with
    | ok alerts => simp [run_source, hu]
    | unavailable => simp [run_source]
    | failure m =>
      by_cases hs : s ∈ errors
      · simp [run_source, hs]
      · simp only [run_source, if_neg hs, List.mem_cons]
        constructor
        · intro h
          rcases h with h | h
          · exact absurd h hu
          · exact h
        · exact Or.inr
  · intro hs l hl hf
    cases l with
    | nil => exact absurd rfl hl
    | cons x rest =>
      obtain ⟨m, hm⟩ := hf x (List.mem_cons_self x rest)
      obtain ⟨res, tt⟩ := x
      simp only at hm
      subst hm
      simp only [run_source_log_count, run_source]
      rw [if_neg hs]
      have hrec := run_source_log_count_of_mem s rest (s :: errors) (statUpdate stat tt)
        (List.mem_cons_self s errors)
        (fun y hy => hf y (List.mem_cons_of_mem _ hy))
      simp [hs, hrec.1]

/-- Witness for C5: a failing check of source foo on a clean error record
yields exactly the synthetic `AlertSourceRunFailed` alert for foo and is
logged; two consecutive failures log exactly once; a success then clears the
record; a different source's record is untouched. -/
theorem run_source_failure_isolation_witness :
    ((run_source [] ⟨[], 0, 0, 0⟩ "foo" (CheckOutcome.failure "boom") 1).outcome =
      Except.ok [{ mkSourceRunFailedAlert "foo" "boom" with source := "foo" }]) ∧
    ((run_source [] ⟨[], 0, 0, 0⟩ "foo" (CheckOutcome.failure "boom") 1).logged = true) ∧
    ((run_source_log_count "foo" [] ⟨[], 0, 0, 0⟩
      [(CheckOutcome.failure "boom", 1), (CheckOutcome.failure "boom", 2)]).2 = 1) ∧
    ("foo" ∉ (run_source ["foo"] ⟨[], 0, 0, 0⟩ "foo" (CheckOutcome.ok []) 1).errors) ∧
    ("bar" ∈ (run_source ["bar"] ⟨[], 0, 0, 0⟩ "foo" (CheckOutcome.failure "boom") 1).errors) := by
  have h := run_source_failure_isolation [] ⟨[], 0, 0, 0⟩ "foo" "boom" 1
  refine ⟨h.1, ?_, ?_, ?_, ?_⟩
  · rw [h.2.2.2.1]
    decide
  · exact h.2.2.2.2.2.2.2 (by decide)
      [(CheckOutcome.failure "boom", 1), (CheckOutcome.failure "boom", 2)]
      (by simp)
      (by intro x hx
          rcases List.mem_cons.mp hx with hx | hx
          · exact ⟨"boom", by rw [hx]⟩
          · rcases List.mem_cons.mp hx with hx | hx
            · exact ⟨"boom", by rw [hx]⟩
            · exact absurd hx (List.not_mem_nil x))
  · exact (run_source_failure_isolation ["foo"] ⟨[], 0, 0, 0⟩ "foo" "boom" 1).2.2.2.2.2.1 []
  · exact ((run_source_failure_isolation ["bar"] ⟨[], 0, 0, 0⟩ "foo" "boom" 1).2.2.2.2.2.2.1
      (CheckOutcome.failure "boom") "bar" (by decide)).mpr (by decide)

/-- C6: mid-run role-change rollback. When the run/send preconditions hold at
the start of a `process_alerts` pass (`pre_start = true`) but fail at the
re-check after running the sources and expiring alerts (`pre_end = false`),
the pass restores the snapshot taken at its start and performs no dispatch:
whatever `__run_alerts` left in the store, the resulting store is the
original one and `send_alerts` is not called. -/
theorem process_alerts_rollback (store run_result : List Alert) (now : Int) :
    process_alerts true false store run_result now = (store, false) := by
  simp [process_alerts]

/-- Counterexample to C7: the filtered full current alert set is non-empty
(one live, visible, non-dismissed alert), yet with empty filtered gone and
new sets the service is skipped — the backend is neither constructed nor
invoked, because the skip test looks only at the gone and new sets. -/
theorem dispatch_skip_counterexample :
    serviceFilterAll "SCALE" [] 0 [vAlert] = [vAlert] ∧
    vAlert.dismissed = false ∧
    dispatch_service "SCALE" [] Policy.IMMEDIATELY 0 true [vAlert] [] [] =
      ServiceAction.skipped := by
  decide

/-- C7 as amended: within one dispatch pass a service's backend is skipped
exactly when, after severity/product/policy filtering and churn
cancellation, the gone and new lists are both empty (regardless of the
filtered full current alert set), or the backend factory is missing or fails
to construct, or after additionally dropping dismissed alerts all three
lists are empty. -/
theorem dispatch_service_skip_iff (product : String) (classes : ClassesConfig)
    (policy_name : Policy) (service_level : Int) (factory_ok : Bool)
    (alerts gone_alerts new_alerts : List Alert) :
    dispatch_service product classes policy_name service_level factory_ok
      alerts gone_alerts new_alerts = ServiceAction.skipped ↔
    (((cancel_churn (serviceFilterDiff product classes service_level policy_name gone_alerts)
        (serviceFilterDiff product classes service_level policy_name new_alerts)).1 = [] ∧
      (cancel_churn (serviceFilterDiff product classes service_level policy_name gone_alerts)
        (serviceFilterDiff product classes service_level policy_name new_alerts)).2 = []) ∨
     factory_ok = false ∨
     ((serviceFilterAll product classes service_level alerts).filter
        (fun a => ¬ a.dismissed) = [] ∧
      (cancel_churn (serviceFilterDiff product classes service_level policy_name gone_alerts)
        (serviceFilterDiff product classes service_level policy_name new_alerts)).1.filter
        (fun a => ¬ a.dismissed) = [] ∧
      (cancel_churn (serviceFilterDiff product classes service_level policy_name gone_alerts)
        (serviceFilterDiff product classes service_level policy_name new_alerts)).2.filter
        (fun a => ¬ a.dismissed) = [])) := by
  simp only [dispatch_service]
  split_ifs with h1 h2 h3
  · exact iff_of_true rfl (Or.inl h1)
  · refine iff_of_false (by simp) ?_
    intro h
    rcases h with h | h | h
    · exact h1 h
    · rw [h2] at h
      exact Bool.noConfusion h
    · rcases h3 with hc | hc
      · exact hc h.1
      · rcases hc with hc | hc
        · exact hc h.2.1
        · exact hc h.2.2
  · refine iff_of_true rfl (Or.inr (Or.inr ?_))
    push_neg at h3
    exact ⟨h3.1, h3.2.1, h3.2.2⟩
  · refine iff_of_true rfl (Or.inr (Or.inl ?_))
    revert h2
    cases factory_ok <;> simp

/-- C8: dismissed-alert suppression. Whenever the dispatch pass invokes a
service backend's `send`, none of the three argument lists — the filtered
full current alert list, the gone list, the new list — contains an alert
whose dismissed flag is set: dismissed alerts are dropped from all three
lists before the backend is invoked. -/
theorem dispatch_service_no_dismissed (product : String) (classes : ClassesConfig)
    (policy_name : Policy) (service_level : Int) (factory_ok : Bool)
    (alerts gone_alerts new_alerts : List Alert)
    (a g n : List Alert)
    (h : dispatch_service product classes policy_name service_level factory_ok
      alerts gone_alerts new_alerts = ServiceAction.sent a g n) :
    (∀ x ∈ a, x.dismissed = false) ∧
    (∀ x ∈ g, x.dismissed = false) ∧
    (∀ x ∈ n, x.dismissed = false) := by
  simp only [dispatch_service] at h
  split at h
  · exact absurd h (by simp)
  · split at h
    · exact absurd h (by simp)
    · split at h
      · rw [ServiceAction.sent.injEq] at h
        obtain ⟨haeq, hgeq, hneq⟩ := h
        refine ⟨?_, ?_, ?_⟩
        · intro x hx
          rw [← haeq] at hx
          have := (List.mem_filter.mp hx).2
          simpa using this
        · intro x hx
          rw [← hgeq] at hx
          have := (List.mem_filter.mp hx).2
          simpa using this
        · intro x hx
          rw [← hneq] at hx
          have := (List.mem_filter.mp hx).2
          simpa using this
      · exact absurd h (by simp)

/-- Witness for C8: a concrete dispatch that does invoke `send` — full set
[vAlert], gone [goneChurn], new [newOther] — delivers only alerts with
dismissed = false. -/
theorem dispatch_service_no_dismissed_witness :
    vAlert.dismissed = false ∧ goneChurn.dismissed = false ∧
    newOther.dismissed = false := by
  have h := dispatch_service_no_dismissed "SCALE" [] Policy.IMMEDIATELY 0 true
    [vAlert] [goneChurn] [newOther] [vAlert] [goneChurn] [newOther] (by decide)
  exact ⟨h.1 vAlert (by decide), h.2.1 goneChurn (by decide), h.2.2 newOther (by decide)⟩

/-- Unfolded characterization of the list comparison. -/
theorem list_le_eq_true_iff (classes : ClassesConfig) (a b : Alert) :
    list_le classes a b = true ↔
      (-(get_alert_level a classes) < -(get_alert_level b classes) ∨
       (-(get_alert_level a classes) = -(get_alert_level b classes) ∧
        (a.klass.title < b.klass.title ∨
         (a.klass.title = b.klass.title ∧ dtKey a ≤ dtKey b)))) := by
  unfold list_le
  by_cases h1 : -(get_alert_level a classes) = -(get_alert_level b classes)
  · rw [if_neg (not_not_intro h1)]
    by_cases h2 : a.klass.title = b.klass.title
    · rw [if_neg (not_not_intro h2)]
      simp [h1, h2, lt_irrefl]
    · rw [if_pos h2]
      simp [h1, h2, lt_irrefl]
  · rw [if_pos h1]
    simp [h1]

/-- The list comparison is transitive. -/
theorem list_le_trans (classes : ClassesConfig) (a b c : Alert)
    (hab : list_le classes a b = true) (hbc : list_le classes b c = true) :
    list_le classes a c = true := by
  rw [list_le_eq_true_iff] at hab hbc ⊢
  rcases hab with hab | ⟨hab1, hab2⟩
  · rcases hbc with hbc | ⟨hbc1, _⟩
    · exact Or.inl (lt_trans hab hbc)
    · exact Or.inl (hbc1 ▸ hab)
  · rcases hbc with hbc | ⟨hbc1, hbc2⟩
    · exact Or.inl (hab1 ▸ hbc)
    · refine Or.inr ⟨hab1.trans hbc1, ?_⟩
      rcases hab2 with hab2 | ⟨hab2, hab3⟩
      · rcases hbc2 with hbc2 | ⟨hbc2, _⟩
        · exact Or.inl (lt_trans hab2 hbc2)
        · exact Or.inl (hbc2 ▸ hab2)
      · rcases hbc2 with hbc2 | ⟨hbc2, hbc3⟩
        · exact Or.inl (hab2 ▸ hbc2)
        · exact Or.inr ⟨hab2.trans hbc2, le_trans hab3 hbc3⟩

/-- The list comparison is total. -/
theorem list_le_total (classes : ClassesConfig) (a b : Alert) :
    (list_le classes a b || list_le classes b a) = true := by
  rw [Bool.or_eq_true, list_le_eq_true_iff, list_le_eq_true_iff]
  rcases lt_trichotomy (-(get_alert_level a classes)) (-(get_alert_level b classes))
    with h1 | h1 | h1
  · exact Or.inl (Or.inl h1)
  · rcases lt_trichotomy a.klass.title b.klass.title with h2 | h2 | h2
    · exact Or.inl (Or.inr ⟨h1, Or.inl h2⟩)
    · rcases le_total (dtKey a) (dtKey b) with h3 | h3
      · exact Or.inl (Or.inr ⟨h1, Or.inr ⟨h2, h3⟩⟩)
      · exact Or.inr (Or.inr ⟨h1.symm, Or.inr ⟨h2.symm, h3⟩⟩)
    · exact Or.inr (Or.inr ⟨h1.symm, Or.inl h2⟩)
  · exact Or.inr (Or.inl h1)

/-- Visibility unfolded: an alert is shown exactly when its class applies to
the product type and its class's override policy is not `NEVER`. -/
theorem should_show_alert_iff (product : String) (classes : ClassesConfig) (alert : Alert) :
    should_show_alert product classes alert = true ↔
      (product ∈ alert.klass.products ∧
       overridePolicy classes alert.klass.name ≠ some Policy.NEVER) := by
  unfold should_show_alert
  by_cases h1 : product ∈ alert.klass.products
  · rw [if_neg (not_not_intro h1)]
    by_cases h2 : overridePolicy classes alert.klass.name = some Policy.NEVER
    · rw [if_pos h2]
      simp [h1, h2]
    · rw [if_neg h2]
      simp [h1, h2]
  · rw [if_pos h1]
    simp [h1]

/-- An alert of a class with `exclude_from_list = True`, applicable to the
product, with no override. -/
def hiddenAlert : Alert :=
  { klass := AlertSourceRunFailedAlertClass
    node := "A"
    source := "disk"
    key := some "foo"
    uuid := "H"
    args := []
    datetime := some ⟨100, none⟩
    last_occurrence := some ⟨100, none⟩
    dismissed := false
    mail := none }

/-- Counterexample to C9: an alert whose class is marked hidden-from-listing
(`exclude_from_list = True`) is still returned by the list operation — that
flag is consulted only by `list_categories`, not by `AlertService.list`. -/
theorem list_hidden_counterexample :
    AlertSourceRunFailedAlertClass.exclude_from_list = true ∧
    hiddenAlert ∈ list_alerts "SCALE" [] [hiddenAlert] := by
  refine ⟨rfl, ?_⟩
  unfold list_alerts
  rw [List.mem_filter, (List.mergeSort_perm _ _).mem_iff]
  exact ⟨List.mem_singleton_self _, by decide⟩

/-- C9 as amended: the list operation returns exactly the stored alerts whose
class applies to the current product type and whose class's override policy
is not `NEVER`, ordered by descending effective severity, then ascending
class title, then ascending first-seen timestamp; the hidden-from-listing
flag (`exclude_from_list`) does not affect this operation. -/
theorem list_alerts_spec (product : String) (classes : ClassesConfig) (alerts : List Alert) :
    (list_alerts product classes alerts).Pairwise
      (fun a b => list_le classes a b = true) ∧
    (∀ a, a ∈ list_alerts product classes alerts ↔
      (a ∈ alerts ∧ product ∈ a.klass.products ∧
       overridePolicy classes a.klass.name ≠ some Policy.NEVER)) := by
  constructor
  · have hs := @List.sorted_mergeSort Alert (list_le classes)
      (fun x y z => list_le_trans classes x y z)
      (fun x y => list_le_total classes x y) alerts
    exact List.Pairwise.sublist (List.filter_sublist _) hs
  · intro a
    unfold list_alerts
    rw [List.mem_filter, (List.mergeSort_perm alerts (list_le classes)).mem_iff,
      should_show_alert_iff]

/-- C10: per-source statistics are total and division-safe. `sources_stats`
returns one entry per tracked source; every returned entry's average equals
total_time divided by total_count when total_count is non-zero and equals 0
when total_count is zero, and every tracked source's entry is returned. -/
theorem sources_stats_spec (stats : List (String × SourceRunStat)) :
    ((sources_stats stats).length = stats.length) ∧
    (∀ e ∈ sources_stats stats,
      (e.2.2.total_count ≠ 0 →
        e.2.1 = e.2.2.total_time / (e.2.2.total_count : ℚ)) ∧
      (e.2.2.total_count = 0 → e.2.1 = 0)) ∧
    (∀ k v, (k, v) ∈ stats → (k, stat_avg v, v) ∈ sources_stats stats) := by
  refine ⟨?_, ?_, ?_⟩
  · unfold sources_stats
    rw [List.length_map]
    exact (List.mergeSort_perm stats _).length_eq
  · intro e he
    unfold sources_stats at he
    obtain ⟨kv, _, hkv⟩ := List.mem_map.mp he
    rw [← hkv]
    constructor
    · intro h
      simp only [stat_avg, if_pos h]
    · intro h
      simp only [stat_avg, if_neg (not_not_intro h)]
  · intro k v hkv
    unfold sources_stats
    refine List.mem_map.mpr ⟨(k, v), ?_, rfl⟩
    exact (List.mergeSort_perm stats _).mem_iff.mpr hkv

/-- Statistics of a source that has never run. -/
def statZero : SourceRunStat := ⟨[], 0, 0, 0⟩

/-- Statistics of a source that ran once, for 2 time units. -/
def statOne : SourceRunStat := ⟨[2], 2, 1, 2⟩

/-- Witness for C10: a source with no recorded runs reports average 0 (no
division failure), a source with one recorded run reports its exact
average. -/
theorem sources_stats_spec_witness :
    stat_avg statZero = 0 ∧
    stat_avg statOne = statOne.total_time / (statOne.total_count : ℚ) := by
  have h := sources_stats_spec [("a", statZero), ("b", statOne)]
  have hm0 := h.2.2 "a" statZero (by decide)
  have hm1 := h.2.2 "b" statOne (by decide)
  exact ⟨(h.2.1 _ hm0).2 (by decide), (h.2.1 _ hm1).1 (by decide)⟩

end AlertPlugin
